import Mathlib

/-!
Verification of the Gemini provider layer of Resume-Matcher
(`apps/backend/app/agent/providers/gemini.py`) against its specification.

The Python module is shallowly embedded below:

* Python/JSON values are modelled by the inductive type `Json`
  (numbers as rationals, which cover all literals that occur);
* Python dictionaries are association lists read through `List.lookup`,
  so the first binding of a key is its value, matching dict semantics
  for dictionaries with distinct keys;
* Python exceptions raised inside the `try` blocks are modelled by
  `PyExc`, and fallible code returns `Except PyExc _`;
* the external `settings` object (its module is outside the reviewed
  sources) is a record of unknown values, universally quantified in the
  theorems;
* `ProviderError` is the single error kind of the provider boundary.
  Per the spec it is the one error class raised to callers; as a Python
  exception class it is a subclass of `Exception`, which is why the
  generic `except Exception` clause of `__call__` catches it (constructor
  `PyExc.providerError` below).
-/

/-- Values that travel through the provider: JSON trees, also used for the
Python values held in option dictionaries. Numbers are rationals. -/
inductive Json : Type
  | null : Json
  | num (q : ℚ) : Json
  | str (s : String) : Json
  | arr (elems : List Json) : Json
  | obj (fields : List (String × Json)) : Json

/-- A Python dictionary with string keys, read through `List.lookup`. -/
abbrev PyDict := List (String × Json)

/-- `d.get k dflt` of a Python dict. -/
def dictGetD (d : PyDict) (k : String) (dflt : Json) : Json :=
  (d.lookup k).getD dflt

/-- `base.update(upd)` of Python dicts, as far as subsequent lookups are
concerned: bindings of `upd` shadow bindings of `base`. -/
def dictUpdate (base upd : PyDict) : PyDict :=
  upd ++ base

/-- The error kind of the provider boundary (`app.agent.exceptions.ProviderError`). -/
structure ProviderError : Type where
  msg : String
  deriving DecidableEq, Repr

/-- Python exceptions that can arise inside the `try` blocks of
`GeminiProvider.__call__` and `GeminiEmbeddingProvider.embed`. Every
constructor models a subclass of `Exception`, so the trailing
`except Exception` clause catches any of them. -/
inductive PyExc : Type
  | httpStatusError (code : Nat) (body : String) : PyExc
  | requestError (msg : String) : PyExc
  | jsonDecodeError (msg : String) : PyExc
  | providerError (msg : String) : PyExc
  | keyError (key : String) : PyExc
  | indexError (msg : String) : PyExc
  | typeError (msg : String) : PyExc
  deriving DecidableEq, Repr

/-- Python `str(e)` for the exceptions above (for `KeyError` it is the
`repr` of the missing key). -/
def pyExcStr : PyExc → String
  | .httpStatusError code body => "HTTP " ++ toString code ++ ": " ++ body
  | .requestError m => m
  | .jsonDecodeError m => m
  | .providerError m => m
  | .keyError k => "'" ++ k ++ "'"
  | .indexError m => m
  | .typeError m => m

/-- Whether `l2` occurs as a contiguous run inside `l1` (Python substring
membership for `in` on strings). -/
def charsContain (l1 l2 : List Char) : Bool :=
  match l1 with
  | [] => l2.isEmpty
  | _ :: t => (l2.isPrefixOf l1) || charsContain t l2

/-- Python subscription `j[k]` with a string key. -/
def pyGetItem (j : Json) (k : String) : Except PyExc Json :=
  match j with
  | .obj fields =>
      match fields.lookup k with
      | some v => .ok v
      | none => .error (.keyError k)
  | .arr _ => .error (.typeError "list indices must be integers or slices, not str")
  | .str _ => .error (.typeError "string indices must be integers")
  | .num _ => .error (.typeError "'int' object is not subscriptable")
  | .null => .error (.typeError "'NoneType' object is not subscriptable")

/-- Python subscription `j[i]` with a nonnegative integer index. -/
def pyIndex (j : Json) (i : Nat) : Except PyExc Json :=
  match j with
  | .arr elems =>
      match elems.get? i with
      | some v => .ok v
      | none => .error (.indexError "list index out of range")
  | .obj _ => .error (.keyError (toString i))
  | .str _ => .error (.indexError "string index out of range")
  | .num _ => .error (.typeError "'int' object is not subscriptable")
  | .null => .error (.typeError "'NoneType' object is not subscriptable")

/-- Python equality of a value with the string `k` (`str.__eq__` is `False`
on any non-string operand). -/
def jsonEqStr (k : String) : Json → Bool
  | .str s => s == k
  | _ => false

/-- Python membership `k in j` for a string `k`. -/
def pyContains (j : Json) (k : String) : Except PyExc Bool :=
  match j with
  | .obj fields => .ok (fields.lookup k).isSome
  | .arr elems => .ok (elems.any (jsonEqStr k))
  | .str s => .ok (charsContain s.data k.data)
  | .num _ => .error (.typeError "argument of type 'int' is not iterable")
  | .null => .error (.typeError "argument of type 'NoneType' is not iterable")

/-- Python `len(j)`. -/
def pyLen (j : Json) : Except PyExc Nat :=
  match j with
  | .arr elems => .ok elems.length
  | .obj fields => .ok fields.length
  | .str s => .ok s.length
  | .num _ => .error (.typeError "object of type 'int' has no len()")
  | .null => .error (.typeError "object of type 'NoneType' has no len()")

/-- Truthiness of an optional string (`None` and `""` are falsy). -/
def truthy : Option String → Bool
  | none => false
  | some s => !(s == "")

/-- Python `a or b` restricted to optional strings. -/
def pyOr (a b : Option String) : Option String :=
  if truthy a then a else b

/-- The external settings/config source read by the providers.  Modelled from
the spec: the settings module itself is outside the reviewed sources; per the
spec it "supplies default model names, default API keys", resolved once at
provider construction.  Its values are unknown strings (or absent values),
quantified over in the theorems. -/
structure Settings : Type where
  GEMINI_API_KEY : Option String
  LLM_API_KEY : Option String
  EMBEDDING_API_KEY : Option String
  LL_MODEL : String
  EMBEDDING_MODEL : String

/-- The state of a constructed `GeminiProvider`. -/
structure GeminiProviderState : Type where
  api_key : String
  model_name : String
  opts : PyDict

/-- The fixed base URL of both providers. -/
def geminiBaseUrl : String := "https://generativelanguage.googleapis.com/v1beta"

/-- `GeminiProvider.__init__` (gemini.py lines 16-31).  `api_key` is the
explicit argument (possibly `None`), `model_name` the explicit argument or
the `settings.LL_MODEL` default, `opts` the explicit dict or `None`,
`env` the value of `os.getenv("GEMINI_API_KEY")`. -/
def GeminiProviderInit (api_key : Option String) (model_name : String)
    (opts : Option PyDict) (s : Settings) (env : Option String) :
    Except ProviderError GeminiProviderState :=
  let opts := opts.getD []
  let key := pyOr (pyOr (pyOr api_key s.GEMINI_API_KEY) s.LLM_API_KEY) env
  if truthy key then
    let model_name := if model_name == "" then s.LL_MODEL else model_name
    .ok { api_key := key.getD "", model_name := model_name, opts := opts }
  else
    .error { msg := "Gemini API key is missing" }

/-- The merged options dict of `GeminiProvider.__call__` (lines 35-41):
the four recognized keys seeded from provider opts with hardcoded defaults,
then `options.update(generation_args)`. -/
def mergedOptions (opts generation_args : PyDict) : PyDict :=
  dictUpdate
    [("temperature", dictGetD opts "temperature" (.num 0)),
     ("top_p", dictGetD opts "top_p" (.num (9/10))),
     ("top_k", dictGetD opts "top_k" (.num 40)),
     ("max_tokens", dictGetD opts "max_tokens" (.num 8192))]
    generation_args

/-- The `generationConfig` object of the request payload. -/
structure GenerationConfig : Type where
  temperature : Json
  topP : Json
  topK : Json
  maxOutputTokens : Json

/-- The generation request payload (lines 43-51). -/
structure GenerationPayload : Type where
  promptText : String
  generationConfig : GenerationConfig

/-- Builds the `generationConfig` of the payload from the merged options
(lines 45-50).  Python subscription `options[k]` raises `KeyError` when the
key is absent; this never happens because the base dict carries all four
keys, which `buildGenerationConfig_eq` below proves. -/
def buildGenerationConfig (opts generation_args : PyDict) :
    Option GenerationConfig := do
  let options := mergedOptions opts generation_args
  let t ← options.lookup "temperature"
  let p ← options.lookup "top_p"
  let k ← options.lookup "top_k"
  let m ← options.lookup "max_tokens"
  pure { temperature := t, topP := p, topK := k, maxOutputTokens := m }

/-- The full generation payload (lines 43-51). -/
def buildGenerationPayload (prompt : String) (opts generation_args : PyDict) :
    Option GenerationPayload := do
  let cfg ← buildGenerationConfig opts generation_args
  pure { promptText := prompt, generationConfig := cfg }

/-- The URL of the generation request (line 53). -/
def generationUrl (st : GeminiProviderState) : String :=
  geminiBaseUrl ++ "/models/" ++ st.model_name ++ ":generateContent"

/-- One remote HTTP exchange, as observed by the provider code after
`client.post` / `raise_for_status` / `response.json()`:
either a success status with a parsed JSON body, a success status whose body
fails JSON decoding, a non-success status (for which `raise_for_status`
raises `httpx.HTTPStatusError` carrying status code and body text), or a
connection-level fault (`httpx.RequestError` carrying the fault
description). -/
inductive HttpOutcome : Type
  | success (body : Json) : HttpOutcome
  | jsonError (msg : String) : HttpOutcome
  | statusError (code : Nat) (bodyText : String) : HttpOutcome
  | requestError (msg : String) : HttpOutcome

/-- The condition of line 70:
`"candidates" in data and len(data["candidates"]) > 0`. -/
def checkCandidates (data : Json) : Except PyExc Bool := do
  let mem ← pyContains data "candidates"
  if mem then
    let cs ← pyGetItem data "candidates"
    let n ← pyLen cs
    pure (decide (n > 0))
  else
    pure false

/-- Line 71: `data["candidates"][0]["content"]["parts"][0]["text"]`. -/
def extractFirstCandidateText (data : Json) : Except PyExc Json := do
  let cs ← pyGetItem data "candidates"
  let c0 ← pyIndex cs 0
  let content ← pyGetItem c0 "content"
  let parts ← pyGetItem content "parts"
  let p0 ← pyIndex parts 0
  pyGetItem p0 "text"

/-- The body of the `try` block of `GeminiProvider.__call__` (lines 61-74),
given the outcome of the HTTP exchange. -/
def generateTryBody (outcome : HttpOutcome) : Except PyExc Json :=
  match outcome with
  | .statusError code bodyText => .error (.httpStatusError code bodyText)
  | .requestError m => .error (.requestError m)
  | .jsonError m => .error (.jsonDecodeError m)
  | .success data => do
      let ok ← checkCandidates data
      if ok then
        extractFirstCandidateText data
      else
        .error (.providerError "No response from Gemini API")

/-- The `except` clauses of `GeminiProvider.__call__` (lines 76-84):
`httpx.HTTPStatusError`, then `httpx.RequestError`, then `Exception`. -/
def handleGenerateExc : PyExc → ProviderError
  | .httpStatusError code bodyText =>
      { msg := "Gemini API HTTP " ++ toString code ++ ": " ++ bodyText }
  | .requestError m => { msg := "Gemini API request error: " ++ m }
  | e => { msg := "Gemini API error: " ++ pyExcStr e }

/-- `GeminiProvider.__call__`, response side (lines 59-84): the value or the
`ProviderError` the caller observes, given the outcome of the single HTTP
exchange. -/
def runGenerate (outcome : HttpOutcome) : Except ProviderError Json :=
  match generateTryBody outcome with
  | .ok v => .ok v
  | .error e => .error (handleGenerateExc e)

/-- The state of a constructed `GeminiEmbeddingProvider`. -/
structure GeminiEmbeddingProviderState : Type where
  api_key : String
  model : String

/-- Python `s.startswith(p)`. -/
def pyStartswith (s p : String) : Bool :=
  p.data.isPrefixOf s.data

/-- Python slice `s[n:]` for a nonnegative `n`. -/
def pySlice (s : String) (n : Nat) : String :=
  .mk (s.data.drop n)

/-- The embedding-model normalization of
`GeminiEmbeddingProvider.__init__` (lines 93-99): default substitution when
the argument equals `settings.EMBEDDING_MODEL` or is empty, then removal of a
leading `"models/"` prefix (`embedding_model[7:]`). -/
def normalizeEmbeddingModel (embedding_model : String) (s : Settings) : String :=
  let m := if embedding_model == s.EMBEDDING_MODEL || embedding_model == "" then
    "text-embedding-004" else embedding_model
  if pyStartswith m "models/" then pySlice m 7 else m

/-- `GeminiEmbeddingProvider.__init__` (lines 88-102). -/
def GeminiEmbeddingProviderInit (api_key : Option String)
    (embedding_model : String) (s : Settings) (env : Option String) :
    Except ProviderError GeminiEmbeddingProviderState :=
  let key := pyOr (pyOr (pyOr api_key s.GEMINI_API_KEY) s.EMBEDDING_API_KEY) env
  if truthy key then
    .ok { api_key := key.getD "", model := normalizeEmbeddingModel embedding_model s }
  else
    .error { msg := "Gemini API key is missing" }

/-- The embedding request payload (lines 105-109). -/
structure EmbedPayload : Type where
  model : String
  contentText : String
  taskType : String

/-- Builds the embedding request payload (lines 105-109). -/
def buildEmbedPayload (st : GeminiEmbeddingProviderState) (text : String) :
    EmbedPayload :=
  { model := "models/" ++ st.model
    contentText := text
    taskType := "RETRIEVAL_DOCUMENT" }

/-- The URL of the embedding request (line 111). -/
def embedUrl (st : GeminiEmbeddingProviderState) : String :=
  geminiBaseUrl ++ "/models/" ++ st.model ++ ":embedContent"

/-- The condition of line 128:
`"embedding" in data and "values" in data["embedding"]`. -/
def checkEmbedding (data : Json) : Except PyExc Bool := do
  let mem ← pyContains data "embedding"
  if mem then
    let e ← pyGetItem data "embedding"
    pyContains e "values"
  else
    pure false

/-- The body of the `try` block of `GeminiEmbeddingProvider.embed`
(lines 119-131). -/
def embedTryBody (outcome : HttpOutcome) : Except PyExc Json :=
  match outcome with
  | .statusError code bodyText => .error (.httpStatusError code bodyText)
  | .requestError m => .error (.requestError m)
  | .jsonError m => .error (.jsonDecodeError m)
  | .success data => do
      let ok ← checkEmbedding data
      if ok then do
        let e ← pyGetItem data "embedding"
        pyGetItem e "values"
      else
        .error (.providerError "Invalid embedding response from Gemini")

/-- The `except` clauses of `GeminiEmbeddingProvider.embed` (lines 133-141). -/
def handleEmbedExc : PyExc → ProviderError
  | .httpStatusError code bodyText =>
      { msg := "Gemini embedding HTTP " ++ toString code ++ ": " ++ bodyText }
  | .requestError m => { msg := "Gemini embedding request error: " ++ m }
  | e => { msg := "Gemini embedding error: " ++ pyExcStr e }

/-- `GeminiEmbeddingProvider.embed`, response side (lines 117-141). -/
def runEmbed (outcome : HttpOutcome) : Except ProviderError Json :=
  match embedTryBody outcome with
  | .ok v => .ok v
  | .error e => .error (handleEmbedExc e)

/-! Helper lemmas about the Python-semantics primitives. -/

theorem lookup_append (l₁ l₂ : PyDict) (k : String) :
    (l₁ ++ l₂).lookup k = (l₁.lookup k).or (l₂.lookup k) := by
  induction l₁ with
  | nil => simp [List.lookup]
  | cons p t ih =>
      obtain ⟨a, b⟩ := p
      by_cases h : (k == a)
      · simp [List.lookup, h]
      · simp [List.lookup, h, ih]

/-- The effective value of an option key, as the spec words it:
the call-time override if present, else the provider-level option if
present, else the hardcoded default. -/
def effectiveOption (opts generation_args : PyDict) (k : String)
    (hardcodedDefault : Json) : Json :=
  ((generation_args.lookup k).or (opts.lookup k)).getD hardcodedDefault

theorem mergedOptions_lookup_temperature (opts gargs : PyDict) :
    (mergedOptions opts gargs).lookup "temperature" =
      some (effectiveOption opts gargs "temperature" (.num 0)) := by
  unfold mergedOptions dictUpdate effectiveOption dictGetD
  rw [lookup_append]
  cases gargs.lookup "temperature" <;> simp [List.lookup]

theorem mergedOptions_lookup_top_p (opts gargs : PyDict) :
    (mergedOptions opts gargs).lookup "top_p" =
      some (effectiveOption opts gargs "top_p" (.num (9/10))) := by
  unfold mergedOptions dictUpdate effectiveOption dictGetD
  rw [lookup_append]
  cases gargs.lookup "top_p" <;> simp [List.lookup]

theorem mergedOptions_lookup_top_k (opts gargs : PyDict) :
    (mergedOptions opts gargs).lookup "top_k" =
      some (effectiveOption opts gargs "top_k" (.num 40)) := by
  unfold mergedOptions dictUpdate effectiveOption dictGetD
  rw [lookup_append]
  cases gargs.lookup "top_k" <;> simp [List.lookup]

theorem mergedOptions_lookup_max_tokens (opts gargs : PyDict) :
    (mergedOptions opts gargs).lookup "max_tokens" =
      some (effectiveOption opts gargs "max_tokens" (.num 8192)) := by
  unfold mergedOptions dictUpdate effectiveOption dictGetD
  rw [lookup_append]
  cases gargs.lookup "max_tokens" <;> simp [List.lookup]

theorem buildGenerationConfig_eq (opts gargs : PyDict) :
    buildGenerationConfig opts gargs = some {
      temperature := effectiveOption opts gargs "temperature" (.num 0),
      topP := effectiveOption opts gargs "top_p" (.num (9/10)),
      topK := effectiveOption opts gargs "top_k" (.num 40),
      maxOutputTokens := effectiveOption opts gargs "max_tokens" (.num 8192) } := by
  unfold buildGenerationConfig
  simp [mergedOptions_lookup_temperature, mergedOptions_lookup_top_p,
    mergedOptions_lookup_top_k, mergedOptions_lookup_max_tokens]

/-- C1: for each of the four recognized option keys, the value sent in
`generationConfig` is the call-time override if supplied, else the
provider-level option if present, else the hardcoded default
(temperature 0, top_p 9/10, top_k 40, max_tokens 8192); and overrides
that only differ on unrecognized keys produce the same
`generationConfig`. -/
theorem C1_option_merge_precedence (opts gargs : PyDict) :
    buildGenerationConfig opts gargs = some {
      temperature := effectiveOption opts gargs "temperature" (.num 0),
      topP := effectiveOption opts gargs "top_p" (.num (9/10)),
      topK := effectiveOption opts gargs "top_k" (.num 40),
      maxOutputTokens := effectiveOption opts gargs "max_tokens" (.num 8192) } ∧
    (∀ gargs' : PyDict,
      (∀ k ∈ ["temperature", "top_p", "top_k", "max_tokens"],
        gargs'.lookup k = gargs.lookup k) →
      buildGenerationConfig opts gargs' = buildGenerationConfig opts gargs) := by
  refine ⟨buildGenerationConfig_eq opts gargs, ?_⟩
  intro gargs' h
  rw [buildGenerationConfig_eq, buildGenerationConfig_eq]
  unfold effectiveOption
  rw [h "temperature" (by simp), h "top_p" (by simp), h "top_k" (by simp),
    h "max_tokens" (by simp)]

/-- Witness for C1: a provider-level temperature of 1/5 overridden at call
time to 1/2, with an unrecognized override key `"foo"` present or absent,
yields the same `generationConfig`, whose temperature is the call-time 1/2
and whose top_p is the hardcoded 9/10. -/
theorem C1_option_merge_precedence_witness :
    buildGenerationConfig [("temperature", .num (1/5))]
        [("temperature", .num (1/2)), ("foo", .str "x")] =
      buildGenerationConfig [("temperature", .num (1/5))]
        [("temperature", .num (1/2))] ∧
    buildGenerationConfig [("temperature", .num (1/5))]
        [("temperature", .num (1/2)), ("foo", .str "x")] = some {
      temperature := .num (1/2), topP := .num (9/10),
      topK := .num 40, maxOutputTokens := .num 8192 } := by
  constructor
  · exact (C1_option_merge_precedence [("temperature", .num (1/5))]
      [("temperature", .num (1/2))]).2
      [("temperature", .num (1/2)), ("foo", .str "x")]
      (by intro k hk; fin_cases hk <;> rfl)
  · exact (C1_option_merge_precedence [("temperature", .num (1/5))]
      [("temperature", .num (1/2)), ("foo", .str "x")]).1

/-- C2, counterexample: on the response
`{candidates: [{content: {parts: [{text: ""}]}}]}` the code does NOT raise a
`ProviderError`; it returns the empty string as a successful result
(line 70's guard only checks that the candidate list is nonempty, line 72
returns whatever text is found, empty included). -/
theorem C2_empty_text_counterexample :
    runGenerate (.success (.obj [("candidates", .arr
      [.obj [("content", .obj [("parts", .arr [.obj [("text", .str "")]])])]])])) =
      .ok (.str "") := by
  rfl

@[simp] theorem exceptBind_ok {ε α β : Type} (a : α) (f : α → Except ε β) :
    (Except.ok a >>= f) = f a := rfl

@[simp] theorem exceptBind_error {ε α β : Type} (e : ε) (f : α → Except ε β) :
    ((Except.error e : Except ε α) >>= f) = Except.error e := rfl

@[simp] theorem exceptMap_ok {ε α β : Type} (g : α → β) (a : α) :
    (g <$> (Except.ok a : Except ε α)) = Except.ok (g a) := rfl

@[simp] theorem exceptPure {ε α : Type} (a : α) :
    (pure a : Except ε α) = Except.ok a := rfl

theorem generateTryBody_success (data : Json) :
    generateTryBody (.success data) = (checkCandidates data >>= fun ok =>
      if ok then extractFirstCandidateText data
      else .error (.providerError "No response from Gemini API")) := rfl

theorem checkCandidates_absent (fs : List (String × Json))
    (h : fs.lookup "candidates" = none) :
    checkCandidates (.obj fs) = .ok false := by
  unfold checkCandidates
  simp [pyContains, h]

theorem checkCandidates_emptyList (gs : List (String × Json))
    (h : gs.lookup "candidates" = some (.arr [])) :
    checkCandidates (.obj gs) = .ok false := by
  unfold checkCandidates
  simp [pyContains, pyGetItem, pyLen, h]

theorem runGenerate_checkFalse (data : Json)
    (h : checkCandidates data = .ok false) :
    runGenerate (.success data) =
      .error { msg := "Gemini API error: No response from Gemini API" } := by
  unfold runGenerate
  rw [generateTryBody_success, h]
  rfl

/-- C2, amended: for every backend response whose first completion candidate
carries empty text content, `generate` returns the empty string as a
successful result; no `ProviderError` is raised. -/
theorem C2_empty_text_passthrough (cs : List Json) :
    runGenerate (.success (.obj [("candidates", .arr
      (.obj [("content", .obj [("parts", .arr [.obj [("text", .str "")]])])]
        :: cs))])) = .ok (.str "") := by
  unfold runGenerate generateTryBody checkCandidates extractFirstCandidateText
  simp [pyContains, pyGetItem, pyIndex, pyLen, List.lookup]

/-- The shape of a well-formed completion candidate carrying text `t`. -/
def mkCandidate (t : String) : Json :=
  .obj [("content", .obj [("parts", .arr [.obj [("text", .str t)]])])]

/-- C5: a response whose `candidates` key is absent, and a response whose
`candidates` value is the empty list, both make `generate` fail with a
`ProviderError`; a response with at least one well-formed candidate makes
`generate` return the text content of the first candidate. -/
theorem C5_candidates_presence (fs gs : List (String × Json)) (t : String)
    (cs : List Json)
    (habs : fs.lookup "candidates" = none)
    (hemp : gs.lookup "candidates" = some (.arr [])) :
    runGenerate (.success (.obj fs)) =
      .error { msg := "Gemini API error: No response from Gemini API" } ∧
    runGenerate (.success (.obj gs)) =
      .error { msg := "Gemini API error: No response from Gemini API" } ∧
    runGenerate (.success (.obj [("candidates", .arr (mkCandidate t :: cs))])) =
      .ok (.str t) := by
  refine ⟨runGenerate_checkFalse _ (checkCandidates_absent fs habs),
    runGenerate_checkFalse _ (checkCandidates_emptyList gs hemp), ?_⟩
  unfold runGenerate generateTryBody checkCandidates extractFirstCandidateText
  simp [mkCandidate, pyContains, pyGetItem, pyIndex, pyLen, List.lookup]

/-- Witness for C5: concrete instances — the empty object, an object with an
empty candidate list, and a one-candidate response carrying text "hi". -/
theorem C5_candidates_presence_witness :
    runGenerate (.success (.obj [])) =
      .error { msg := "Gemini API error: No response from Gemini API" } ∧
    runGenerate (.success (.obj [("candidates", .arr [])])) =
      .error { msg := "Gemini API error: No response from Gemini API" } ∧
    runGenerate (.success (.obj [("candidates", .arr [mkCandidate "hi"])])) =
      .ok (.str "hi") :=
  C5_candidates_presence [] [("candidates", .arr [])] "hi" [] rfl rfl

/-- C10: when the candidate check of line 70 comes out false, the
`ProviderError("No response from Gemini API")` raised on line 74 is itself
caught by the `except Exception` clause of line 82 and re-wrapped, so the
caller observes the message "Gemini API error: No response from Gemini API",
not the bare "No response from Gemini API". -/
theorem C10_rewrapped_no_response (data : Json)
    (h : checkCandidates data = .ok false) :
    runGenerate (.success data) =
      .error { msg := "Gemini API error: No response from Gemini API" } ∧
    runGenerate (.success data) ≠
      .error { msg := "No response from Gemini API" } := by
  have hrun : runGenerate (.success data) =
      .error { msg := "Gemini API error: No response from Gemini API" } :=
    runGenerate_checkFalse data h
  refine ⟨hrun, ?_⟩
  rw [hrun]
  intro hcontra
  have : ("Gemini API error: No response from Gemini API" : String) =
      "No response from Gemini API" := congrArg ProviderError.msg
    (Except.error.inj hcontra)
  exact absurd this (by decide)

/-- Witness for C10: the concrete empty-candidate-list response. -/
theorem C10_rewrapped_no_response_witness :
    runGenerate (.success (.obj [("candidates", .arr [])])) =
      .error { msg := "Gemini API error: No response from Gemini API" } ∧
    runGenerate (.success (.obj [("candidates", .arr [])])) ≠
      .error { msg := "No response from Gemini API" } :=
  C10_rewrapped_no_response (.obj [("candidates", .arr [])]) rfl

/-- C3: when the explicit argument, both settings keys, and the environment
variable are all empty or absent, construction of either provider fails at
once with the missing-key error.  Both `GeminiProviderInit` and
`GeminiEmbeddingProviderInit` are pure functions of their configuration —
no `HttpOutcome` enters construction — so the failure happens before any
network call is attempted. -/
theorem C3_missing_key_fast_failure (api_key : Option String) (mn em : String)
    (opts : Option PyDict) (s : Settings) (env : Option String)
    (h1 : truthy api_key = false) (h2 : truthy s.GEMINI_API_KEY = false)
    (h3 : truthy s.LLM_API_KEY = false)
    (h4 : truthy s.EMBEDDING_API_KEY = false)
    (h5 : truthy env = false) :
    GeminiProviderInit api_key mn opts s env =
      .error { msg := "Gemini API key is missing" } ∧
    GeminiEmbeddingProviderInit api_key em s env =
      .error { msg := "Gemini API key is missing" } := by
  constructor
  · unfold GeminiProviderInit pyOr
    simp [h1, h2, h3, h5]
  · unfold GeminiEmbeddingProviderInit pyOr
    simp [h1, h2, h4, h5]

/-- Witness for C3: no explicit key, empty settings keys, absent
environment variable. -/
theorem C3_missing_key_fast_failure_witness :
    GeminiProviderInit none "gemini-2.0-flash" none
        { GEMINI_API_KEY := some "", LLM_API_KEY := none,
          EMBEDDING_API_KEY := some "", LL_MODEL := "gemini-2.0-flash",
          EMBEDDING_MODEL := "embedding-001" } none =
      .error { msg := "Gemini API key is missing" } ∧
    GeminiEmbeddingProviderInit none "embedding-001"
        { GEMINI_API_KEY := some "", LLM_API_KEY := none,
          EMBEDDING_API_KEY := some "", LL_MODEL := "gemini-2.0-flash",
          EMBEDDING_MODEL := "embedding-001" } none =
      .error { msg := "Gemini API key is missing" } :=
  C3_missing_key_fast_failure none "gemini-2.0-flash" "embedding-001" none
    { GEMINI_API_KEY := some "", LLM_API_KEY := none,
      EMBEDDING_API_KEY := some "", LL_MODEL := "gemini-2.0-flash",
      EMBEDDING_MODEL := "embedding-001" } none
    rfl rfl rfl rfl rfl

/-- The first non-empty candidate of a list of optional strings — the
resolution rule as the spec words it ("first non-empty value wins, in that
declared precedence order"). -/
def firstNonEmptyKey : List (Option String) → Option String
  | [] => none
  | some v :: rest => if v = "" then firstNonEmptyKey rest else some v
  | none :: rest => firstNonEmptyKey rest

theorem firstNonEmptyKey_cons (x : Option String)
    (rest : List (Option String)) :
    firstNonEmptyKey (x :: rest) =
      if truthy x then x else firstNonEmptyKey rest := by
  cases x with
  | none => simp [firstNonEmptyKey, truthy]
  | some v => by_cases hv : v = "" <;> simp [firstNonEmptyKey, truthy, hv]

theorem firstNonEmptyKey_truthy (l : List (Option String)) (k : String)
    (h : firstNonEmptyKey l = some k) : truthy (some k) = true := by
  induction l with
  | nil => simp [firstNonEmptyKey] at h
  | cons x rest ih =>
      rw [firstNonEmptyKey_cons] at h
      by_cases hx : truthy x = true
      · rw [if_pos hx] at h
        rw [h] at hx
        exact hx
      · rw [if_neg hx] at h
        exact ih h

theorem pyOr_chain_firstNonEmpty (a b c d : Option String) (k : String)
    (h : firstNonEmptyKey [a, b, c, d] = some k) :
    pyOr (pyOr (pyOr a b) c) d = some k ∧ truthy (some k) = true := by
  refine ⟨?_, firstNonEmptyKey_truthy _ _ h⟩
  rw [firstNonEmptyKey_cons, firstNonEmptyKey_cons, firstNonEmptyKey_cons,
    firstNonEmptyKey_cons] at h
  by_cases ta : truthy a = true
  · rw [if_pos ta] at h
    subst h
    simp [pyOr, ta]
  · rw [if_neg ta] at h
    by_cases tb : truthy b = true
    · rw [if_pos tb] at h
      subst h
      simp [pyOr, ta, tb]
    · rw [if_neg tb] at h
      by_cases tc : truthy c = true
      · rw [if_pos tc] at h
        subst h
        simp [pyOr, ta, tb, tc]
      · rw [if_neg tc] at h
        by_cases td : truthy d = true
        · rw [if_pos td] at h
          subst h
          simp [pyOr, ta, tb, tc]
        · rw [if_neg td] at h
          simp [firstNonEmptyKey] at h

/-- C4: for every combination of the four candidate key sources, whenever
some candidate is non-empty, construction succeeds and the resolved
`api_key` is the first non-empty candidate in declared precedence order —
explicit argument, `settings.GEMINI_API_KEY`, the settings fallback key
(`settings.LLM_API_KEY` for generation, `settings.EMBEDDING_API_KEY` for
embedding), then the environment variable. -/
theorem C4_api_key_precedence (api_key : Option String) (mn em : String)
    (opts : Option PyDict) (s : Settings) (env : Option String) (k k' : String) :
    (firstNonEmptyKey [api_key, s.GEMINI_API_KEY, s.LLM_API_KEY, env] = some k →
      ∃ st : GeminiProviderState,
        GeminiProviderInit api_key mn opts s env = .ok st ∧ st.api_key = k) ∧
    (firstNonEmptyKey [api_key, s.GEMINI_API_KEY, s.EMBEDDING_API_KEY, env] =
        some k' →
      ∃ st : GeminiEmbeddingProviderState,
        GeminiEmbeddingProviderInit api_key em s env = .ok st ∧
          st.api_key = k') := by
  constructor
  · intro h
    obtain ⟨heq, htr⟩ := pyOr_chain_firstNonEmpty _ _ _ _ _ h
    unfold GeminiProviderInit
    simp [heq, htr]
  · intro h
    obtain ⟨heq, htr⟩ := pyOr_chain_firstNonEmpty _ _ _ _ _ h
    unfold GeminiEmbeddingProviderInit
    simp [heq, htr]

/-- Witness for C4: explicit argument absent, `GEMINI_API_KEY` empty,
so the generation provider resolves the fallback `LLM_API_KEY` and the
embedding provider resolves the fallback `EMBEDDING_API_KEY`. -/
theorem C4_api_key_precedence_witness :
    (∃ st : GeminiProviderState,
      GeminiProviderInit none "gemini-2.0-flash" none
          { GEMINI_API_KEY := some "", LLM_API_KEY := some "llm-key",
            EMBEDDING_API_KEY := some "emb-key",
            LL_MODEL := "gemini-2.0-flash",
            EMBEDDING_MODEL := "embedding-001" } none = .ok st ∧
        st.api_key = "llm-key") ∧
    (∃ st : GeminiEmbeddingProviderState,
      GeminiEmbeddingProviderInit none "embedding-001"
          { GEMINI_API_KEY := some "", LLM_API_KEY := some "llm-key",
            EMBEDDING_API_KEY := some "emb-key",
            LL_MODEL := "gemini-2.0-flash",
            EMBEDDING_MODEL := "embedding-001" } none = .ok st ∧
        st.api_key = "emb-key") := by
  constructor
  · exact (C4_api_key_precedence none "gemini-2.0-flash" "embedding-001" none
      { GEMINI_API_KEY := some "", LLM_API_KEY := some "llm-key",
        EMBEDDING_API_KEY := some "emb-key", LL_MODEL := "gemini-2.0-flash",
        EMBEDDING_MODEL := "embedding-001" } none "llm-key" "emb-key").1
      (by decide)
  · exact (C4_api_key_precedence none "gemini-2.0-flash" "embedding-001" none
      { GEMINI_API_KEY := some "", LLM_API_KEY := some "llm-key",
        EMBEDDING_API_KEY := some "emb-key", LL_MODEL := "gemini-2.0-flash",
        EMBEDDING_MODEL := "embedding-001" } none "llm-key" "emb-key").2
      (by decide)

/-- C6: a non-success HTTP status makes `generate` and `embed` fail with a
`ProviderError` whose message contains the status code and the response body
text (exhibited by the explicit concatenation), and a connection-level fault
makes them fail with a `ProviderError` whose message contains the fault's
description. -/
theorem C6_transport_failure_mapping (code : Nat) (bodyText m : String) :
    runGenerate (.statusError code bodyText) =
      .error { msg := "Gemini API HTTP " ++ toString code ++ ": " ++ bodyText } ∧
    runEmbed (.statusError code bodyText) =
      .error { msg := "Gemini embedding HTTP " ++ toString code ++ ": " ++ bodyText } ∧
    runGenerate (.requestError m) =
      .error { msg := "Gemini API request error: " ++ m } ∧
    runEmbed (.requestError m) =
      .error { msg := "Gemini embedding request error: " ++ m } :=
  ⟨rfl, rfl, rfl, rfl⟩

/-- The description of the original cause of a failure inside a call:
status code and body text for an HTTP status error, the fault description
for a connection error, `str(e)` for anything else. -/
def causeDescription : PyExc → String
  | .httpStatusError code bodyText => toString code ++ ": " ++ bodyText
  | .requestError m => m
  | e => pyExcStr e

/-- C8: whatever failure arises inside the `try` block of a `generate` or
`embed` call — transport error, non-2xx status, JSON decode failure,
shape-violating response (missing candidates/content/parts, missing
embedding/values), or the internally raised `ProviderError` — the caller
observes a `ProviderError` (the only error kind `runGenerate`/`runEmbed`
can return, by their types) whose message extends the original cause's
description. -/
theorem C8_all_failures_become_provider_error (outcome : HttpOutcome)
    (e : PyExc) :
    (generateTryBody outcome = .error e →
      ∃ p, runGenerate outcome = .error { msg := p ++ causeDescription e }) ∧
    (embedTryBody outcome = .error e →
      ∃ p, runEmbed outcome = .error { msg := p ++ causeDescription e }) := by
  constructor
  · intro h
    unfold runGenerate
    rw [h]
    cases e with
    | httpStatusError code bodyText =>
        exact ⟨"Gemini API HTTP ", by
          simp [handleGenerateExc, causeDescription, String.append_assoc]⟩
    | requestError m =>
        exact ⟨"Gemini API request error: ", by
          simp [handleGenerateExc, causeDescription]⟩
    | jsonDecodeError m =>
        exact ⟨"Gemini API error: ", by
          simp [handleGenerateExc, causeDescription, pyExcStr]⟩
    | providerError m =>
        exact ⟨"Gemini API error: ", by
          simp [handleGenerateExc, causeDescription, pyExcStr]⟩
    | keyError key =>
        exact ⟨"Gemini API error: ", by
          simp [handleGenerateExc, causeDescription, pyExcStr,
            String.append_assoc]⟩
    | indexError m =>
        exact ⟨"Gemini API error: ", by
          simp [handleGenerateExc, causeDescription, pyExcStr]⟩
    | typeError m =>
        exact ⟨"Gemini API error: ", by
          simp [handleGenerateExc, causeDescription, pyExcStr]⟩
  · intro h
    unfold runEmbed
    rw [h]
    cases e with
    | httpStatusError code bodyText =>
        exact ⟨"Gemini embedding HTTP ", by
          simp [handleEmbedExc, causeDescription, String.append_assoc]⟩
    | requestError m =>
        exact ⟨"Gemini embedding request error: ", by
          simp [handleEmbedExc, causeDescription]⟩
    | jsonDecodeError m =>
        exact ⟨"Gemini embedding error: ", by
          simp [handleEmbedExc, causeDescription, pyExcStr]⟩
    | providerError m =>
        exact ⟨"Gemini embedding error: ", by
          simp [handleEmbedExc, causeDescription, pyExcStr]⟩
    | keyError key =>
        exact ⟨"Gemini embedding error: ", by
          simp [handleEmbedExc, causeDescription, pyExcStr,
            String.append_assoc]⟩
    | indexError m =>
        exact ⟨"Gemini embedding error: ", by
          simp [handleEmbedExc, causeDescription, pyExcStr]⟩
    | typeError m =>
        exact ⟨"Gemini embedding error: ", by
          simp [handleEmbedExc, causeDescription, pyExcStr]⟩

/-- Witness for C8: an HTTP 500 with body "internal error" surfaces through
both calls as a `ProviderError` whose message ends with the cause's
description "500: internal error". -/
theorem C8_all_failures_become_provider_error_witness :
    (∃ p, runGenerate (.statusError 500 "internal error") =
      .error { msg := p ++
        causeDescription (.httpStatusError 500 "internal error") }) ∧
    (∃ p, runEmbed (.statusError 500 "internal error") =
      .error { msg := p ++
        causeDescription (.httpStatusError 500 "internal error") }) :=
  ⟨(C8_all_failures_become_provider_error (.statusError 500 "internal error")
      (.httpStatusError 500 "internal error")).1 rfl,
   (C8_all_failures_become_provider_error (.statusError 500 "internal error")
      (.httpStatusError 500 "internal error")).2 rfl⟩

/-- C9: the embedding request payload carries `taskType` equal to the fixed
constant "RETRIEVAL_DOCUMENT" for every provider state and every input text;
`embed`'s only call-time parameter is the text, so no caller-supplied
parameter can change it. -/
theorem C9_taskType_fixed (st : GeminiEmbeddingProviderState) (text : String) :
    (buildEmbedPayload st text).taskType = "RETRIEVAL_DOCUMENT" := rfl


theorem models_append_ne_empty (m : String) : ("models/" ++ m == "") = false := by
  rw [beq_eq_false_iff_ne]
  intro hcontra
  have h2 : ("models/" : String).data ++ m.data = ([] : List Char) := by
    rw [← String.data_append, hcontra]
  rw [List.append_eq_nil] at h2
  exact absurd h2.1 (by decide)

theorem pyStartswith_append (p m : String) : pyStartswith (p ++ m) p = true := by
  unfold pyStartswith
  rw [String.data_append]
  simp [ List.isPrefixOf_iff_prefix]

theorem pySlice_models_append (m : String) : pySlice ("models/" ++ m) 7 = m := by
  unfold pySlice
  rw [String.data_append]
  have h7 : ("models/" : String).data.length = 7 := by decide
  rw [← h7, List.drop_left]

/-- A concrete settings assignment used to instantiate theorems about the
providers (any values work; these mirror typical deployment values). -/
def exampleSettings : Settings :=
  { GEMINI_API_KEY := none, LLM_API_KEY := none, EMBEDDING_API_KEY := none,
    LL_MODEL := "gemini-2.0-flash", EMBEDDING_MODEL := "embedding-001" }

/-- C7, counterexample: for the embedding model identifier `"models/foo"`
(one that itself starts with `"models/"`), constructing with the identifier
and constructing with `"models/" ++` the identifier yield different request
URLs — the constructor strips the `"models/"` prefix only once, so
`"models/models/foo"` normalizes to `"models/foo"` while `"models/foo"`
normalizes to `"foo"`. -/
theorem C7_model_prefix_counterexample :
    embedUrl ⟨"k", normalizeEmbeddingModel ("models/" ++ "models/foo") exampleSettings⟩ ≠
      embedUrl ⟨"k", normalizeEmbeddingModel "models/foo" exampleSettings⟩ := by
  decide

/-- C7, amended: for every embedding model identifier `m` that is non-empty,
does not itself start with `"models/"`, and is such that neither `m` nor
`"models/" ++ m` equals the settings default `EMBEDDING_MODEL` (the
default-substitution branch fires for neither form), constructing with
`"models/" ++ m` and constructing with `m` normalize to the same stored
model — both to `m` — and hence produce identical request URLs and identical
`model` fields in the request payload. -/
theorem C7_model_prefix_roundtrip (s : Settings) (m : String)
    (h1 : m ≠ "") (h2 : pyStartswith m "models/" = false)
    (h3 : m ≠ s.EMBEDDING_MODEL) (h4 : "models/" ++ m ≠ s.EMBEDDING_MODEL) :
    normalizeEmbeddingModel ("models/" ++ m) s = normalizeEmbeddingModel m s ∧
    normalizeEmbeddingModel ("models/" ++ m) s = m ∧
    (∀ key text : String,
      embedUrl ⟨key, normalizeEmbeddingModel ("models/" ++ m) s⟩ =
        embedUrl ⟨key, normalizeEmbeddingModel m s⟩ ∧
      (buildEmbedPayload ⟨key, normalizeEmbeddingModel ("models/" ++ m) s⟩ text).model =
        (buildEmbedPayload ⟨key, normalizeEmbeddingModel m s⟩ text).model) := by
  have hm : normalizeEmbeddingModel m s = m := by
    unfold normalizeEmbeddingModel
    simp [beq_eq_false_iff_ne.mpr h3, beq_eq_false_iff_ne.mpr h1, h2]
  have hpm : normalizeEmbeddingModel ("models/" ++ m) s = m := by
    unfold normalizeEmbeddingModel
    simp [beq_eq_false_iff_ne.mpr h4, models_append_ne_empty,
      pyStartswith_append, pySlice_models_append]
  refine ⟨by rw [hm, hpm], hpm, ?_⟩
  intro key text
  rw [hm, hpm]
  exact ⟨rfl, rfl⟩

/-- Witness for C7 (amended): the identifier "text-embedding-004" resolves
to the same request URL with and without the `"models/"` prefix. -/
theorem C7_model_prefix_roundtrip_witness :
    normalizeEmbeddingModel ("models/" ++ "text-embedding-004") exampleSettings =
      normalizeEmbeddingModel "text-embedding-004" exampleSettings ∧
    embedUrl ⟨"k",
        normalizeEmbeddingModel ("models/" ++ "text-embedding-004") exampleSettings⟩ =
      embedUrl ⟨"k", normalizeEmbeddingModel "text-embedding-004" exampleSettings⟩ :=
  ⟨(C7_model_prefix_roundtrip exampleSettings "text-embedding-004"
      (by decide) (by decide) (by decide) (by decide)).1,
   ((C7_model_prefix_roundtrip exampleSettings "text-embedding-004"
      (by decide) (by decide) (by decide) (by decide)).2.2 "k" "text").1⟩
